import Mathlib

/-!
Shallow embedding of `src/reservation_system.py`, a hotel reservation system
persisting hotels, customers and reservations as JSON files.

Modelling choices:
* A Python scalar value stored in a record field is `Value` (string or int).
* A Python `dict` (one persisted record) is `Record`, an association list in
  insertion order; `pyGet` is a guarded subscript (`r[k]` returning `Option`),
  `setItem` is `r[k] = v` (overwrite in place, else append), and `dictUpdate`
  is `dict.update` (apply each assignment of the argument in order).
* The content of one JSON file is `FileContent`: the file may be missing,
  hold invalid JSON (a `json.JSONDecodeError` on parse), or hold valid JSON.
  A parsed JSON value is `PyObj`: either a list of records (the persisted
  collection shape) or some other JSON value, represented by `pystr s`,
  a JSON string literal (taken non-empty where a manager iterates it, so
  that subscripting its characters raises `TypeError`).
* Each manager reads and writes one fixed file, so a manager operation is a
  function from that file's `FileContent`; operations that can raise a
  Python exception return `Except PyError`; an error result means the
  exception propagated and `save_data` was never reached.
* `load_data`'s second component records whether the invalid-format error
  message was printed; `display` returns the list of records it printed
  together with the (untouched) file content.
-/

inductive Value where
| str (s : String)
| int (n : Int)
deriving DecidableEq, Repr

/-- A Python dict as persisted in JSON: ordered association list of fields. -/
abbrev Record := List (String × Value)

/-- The result of `json.load`: a list of records (the valid collection shape)
or some other JSON value such as a string. -/
inductive PyObj where
| pylist (rs : List Record)
| pystr (s : String)
deriving DecidableEq, Repr

/-- The state of one JSON file on disk. -/
inductive FileContent where
| missing
| invalidJson
| validJson (v : PyObj)
deriving DecidableEq, Repr

/-- Python exceptions that the embedded operations can raise. -/
inductive PyError where
| keyError
| typeError
| attributeError
deriving DecidableEq, Repr

instance {ε α : Type} [DecidableEq ε] [DecidableEq α] : DecidableEq (Except ε α)
| Except.error a, Except.error b =>
  if h : a = b then isTrue (congrArg Except.error h)
  else isFalse (fun hc => h (Except.error.inj hc))
| Except.error _, Except.ok _ => isFalse (fun hc => Except.noConfusion hc)
| Except.ok _, Except.error _ => isFalse (fun hc => Except.noConfusion hc)
| Except.ok a, Except.ok b =>
  if h : a = b then isTrue (congrArg Except.ok h)
  else isFalse (fun hc => h (Except.ok.inj hc))

/-- Dictionary lookup: first (and in a real dict, only) binding of a key. -/
def pyGet : Record → String → Option Value
| [], _ => none
| (k, v) :: rest, key => if k = key then some v else pyGet rest key

/-- Python subscript `r[key]`: raises `KeyError` when the key is absent. -/
def getItem (r : Record) (key : String) : Except PyError Value :=
  match pyGet r key with
  | some v => Except.ok v
  | none => Except.error PyError.keyError

/-- Python assignment `r[key] = v`: overwrite in place, or append. -/
def setItem : Record → String → Value → Record
| [], key, v => [(key, v)]
| (k1, v1) :: rest, key, v =>
  if k1 = key then (key, v) :: rest else (k1, v1) :: setItem rest key v

/-- Python `r.update(new_info)`: each field of `new_info` assigned in order. -/
def dictUpdate (r : Record) (new_info : Record) : Record :=
  new_info.foldl (fun acc kv => setItem acc kv.1 kv.2) r

namespace Persistence

/-- `Persistence.load_data`: empty list when the file is missing; on invalid
JSON, print an error message (second component `true`) and return the empty
list; otherwise return the parsed JSON value. -/
def load_data : FileContent → PyObj × Bool
| FileContent.missing => (PyObj.pylist [], false)
| FileContent.invalidJson => (PyObj.pylist [], true)
| FileContent.validJson v => (v, false)

/-- `Persistence.save_data`: overwrite the file with the JSON dump of the
list of records. -/
def save_data (data : List Record) : FileContent :=
  FileContent.validJson (PyObj.pylist data)

end Persistence

/-- The comprehension `[h for h in hotels if h[key] != target]`: subscripts
every element, so it raises `KeyError` on the first element lacking `key`. -/
def filterById (key : String) (target : Value) : List Record → Except PyError (List Record)
| [] => Except.ok []
| r :: rs =>
  match getItem r key with
  | Except.error e => Except.error e
  | Except.ok v =>
    match filterById key target rs with
    | Except.error e => Except.error e
    | Except.ok rest => Except.ok (if v ≠ target then r :: rest else rest)

/-- The display loop `for r in rs: if r[key] == target: print(r)`: returns
the records printed; subscripts every element. -/
def printMatching (key : String) (target : Value) : List Record → Except PyError (List Record)
| [] => Except.ok []
| r :: rs =>
  match getItem r key with
  | Except.error e => Except.error e
  | Except.ok v =>
    match printMatching key target rs with
    | Except.error e => Except.error e
    | Except.ok rest => Except.ok (if v = target then r :: rest else rest)

/-- The modify loop `for r in rs: if r[key] == target: r.update(new_info)`:
subscripts every element, updating the matching ones in place. -/
def updateMatching (key : String) (target : Value) (new_info : Record) :
    List Record → Except PyError (List Record)
| [] => Except.ok []
| r :: rs =>
  match getItem r key with
  | Except.error e => Except.error e
  | Except.ok v =>
    match updateMatching key target new_info rs with
    | Except.error e => Except.error e
    | Except.ok rest => Except.ok ((if v = target then dictUpdate r new_info else r) :: rest)

/-- A file holding a valid persisted collection. -/
def mkFile (rs : List Record) : FileContent :=
  FileContent.validJson (PyObj.pylist rs)

structure Hotel where
  hotel_id : Value
  name : Value
  location : Value
  rooms_available : Value

/-- `Hotel.to_dict`: the instance `__dict__`, fields in assignment order. -/
def Hotel.to_dict (h : Hotel) : Record :=
  [("hotel_id", h.hotel_id), ("name", h.name),
   ("location", h.location), ("rooms_available", h.rooms_available)]

structure Customer where
  customer_id : Value
  name : Value
  email : Value

/-- `Customer.to_dict`: the instance `__dict__`, fields in assignment order. -/
def Customer.to_dict (c : Customer) : Record :=
  [("customer_id", c.customer_id), ("name", c.name), ("email", c.email)]

structure Reservation where
  reservation_id : Value
  customer_id : Value
  hotel_id : Value

/-- `Reservation.to_dict`: the instance `__dict__`, fields in assignment order. -/
def Reservation.to_dict (r : Reservation) : Record :=
  [("reservation_id", r.reservation_id), ("customer_id", r.customer_id),
   ("hotel_id", r.hotel_id)]

namespace HotelManager

/-- `HotelManager.create_hotel`: load, append `hotel.to_dict()`, save.
On a loaded non-list, `.append` raises `AttributeError`. -/
def create_hotel (hotel : Hotel) (fs : FileContent) : Except PyError FileContent :=
  match (Persistence.load_data fs).1 with
  | PyObj.pylist hotels => Except.ok (Persistence.save_data (hotels ++ [hotel.to_dict]))
  | PyObj.pystr _ => Except.error PyError.attributeError

/-- `HotelManager.delete_hotel`: load, filter out records whose
`hotel_id` equals the argument, save. -/
def delete_hotel (hotel_id : Value) (fs : FileContent) : Except PyError FileContent :=
  match (Persistence.load_data fs).1 with
  | PyObj.pylist hotels =>
    match filterById "hotel_id" hotel_id hotels with
    | Except.ok hotels2 => Except.ok (Persistence.save_data hotels2)
    | Except.error e => Except.error e
  | PyObj.pystr _ => Except.error PyError.typeError

/-- `HotelManager.display_hotel`: load, print every record whose `hotel_id`
equals the argument; no save, so the file is returned unchanged. -/
def display_hotel (hotel_id : Value) (fs : FileContent) :
    Except PyError (List Record × FileContent) :=
  match (Persistence.load_data fs).1 with
  | PyObj.pylist hotels =>
    match printMatching "hotel_id" hotel_id hotels with
    | Except.ok printed => Except.ok (printed, fs)
    | Except.error e => Except.error e
  | PyObj.pystr _ => Except.error PyError.typeError

/-- `HotelManager.modify_hotel`: load, merge `new_info` into every record
whose `hotel_id` equals the argument, save. -/
def modify_hotel (hotel_id : Value) (new_info : Record) (fs : FileContent) :
    Except PyError FileContent :=
  match (Persistence.load_data fs).1 with
  | PyObj.pylist hotels =>
    match updateMatching "hotel_id" hotel_id new_info hotels with
    | Except.ok hotels2 => Except.ok (Persistence.save_data hotels2)
    | Except.error e => Except.error e
  | PyObj.pystr _ => Except.error PyError.typeError

end HotelManager

namespace CustomerManager

/-- `CustomerManager.create_customer`: load, append `customer.to_dict()`, save. -/
def create_customer (customer : Customer) (fs : FileContent) : Except PyError FileContent :=
  match (Persistence.load_data fs).1 with
  | PyObj.pylist customers => Except.ok (Persistence.save_data (customers ++ [customer.to_dict]))
  | PyObj.pystr _ => Except.error PyError.attributeError

/-- `CustomerManager.delete_customer`: load, filter out records whose
`customer_id` equals the argument, save. -/
def delete_customer (customer_id : Value) (fs : FileContent) : Except PyError FileContent :=
  match (Persistence.load_data fs).1 with
  | PyObj.pylist customers =>
    match filterById "customer_id" customer_id customers with
    | Except.ok customers2 => Except.ok (Persistence.save_data customers2)
    | Except.error e => Except.error e
  | PyObj.pystr _ => Except.error PyError.typeError

/-- `CustomerManager.display_customer`: load, print every record whose
`customer_id` equals the argument; no save. -/
def display_customer (customer_id : Value) (fs : FileContent) :
    Except PyError (List Record × FileContent) :=
  match (Persistence.load_data fs).1 with
  | PyObj.pylist customers =>
    match printMatching "customer_id" customer_id customers with
    | Except.ok printed => Except.ok (printed, fs)
    | Except.error e => Except.error e
  | PyObj.pystr _ => Except.error PyError.typeError

/-- `CustomerManager.modify_customer`: load, merge `new_info` into every
record whose `customer_id` equals the argument, save. -/
def modify_customer (customer_id : Value) (new_info : Record) (fs : FileContent) :
    Except PyError FileContent :=
  match (Persistence.load_data fs).1 with
  | PyObj.pylist customers =>
    match updateMatching "customer_id" customer_id new_info customers with
    | Except.ok customers2 => Except.ok (Persistence.save_data customers2)
    | Except.error e => Except.error e
  | PyObj.pystr _ => Except.error PyError.typeError

end CustomerManager

namespace ReservationManager

/-- `ReservationManager.create_reservation`: load, append
`reservation.to_dict()`, save. -/
def create_reservation (reservation : Reservation) (fs : FileContent) :
    Except PyError FileContent :=
  match (Persistence.load_data fs).1 with
  | PyObj.pylist reservations =>
    Except.ok (Persistence.save_data (reservations ++ [reservation.to_dict]))
  | PyObj.pystr _ => Except.error PyError.attributeError

/-- `ReservationManager.cancel_reservation`: load, filter out records whose
`reservation_id` equals the argument, save. -/
def cancel_reservation (reservation_id : Value) (fs : FileContent) :
    Except PyError FileContent :=
  match (Persistence.load_data fs).1 with
  | PyObj.pylist reservations =>
    match filterById "reservation_id" reservation_id reservations with
    | Except.ok reservations2 => Except.ok (Persistence.save_data reservations2)
    | Except.error e => Except.error e
  | PyObj.pystr _ => Except.error PyError.typeError

end ReservationManager

/-- File content that exists but is not a valid persisted collection:
either invalid JSON, or a valid JSON value of the wrong shape. -/
def malformedContent : FileContent → Bool
| FileContent.invalidJson => true
| FileContent.validJson (PyObj.pystr _) => true
| _ => false

/-! Concrete sample data used by the witnesses and counterexamples. -/

def sampleHotel : Hotel :=
  ⟨Value.str "1", Value.str "Grand Plaza", Value.str "New York", Value.int 100⟩

def sampleHotels : List Record :=
  [[("hotel_id", Value.str "2"), ("name", Value.str "Beta")]]

def sampleHotels2 : List Record :=
  [[("hotel_id", Value.str "1"), ("name", Value.str "A")],
   [("hotel_id", Value.str "2"), ("name", Value.str "B")],
   [("hotel_id", Value.str "1"), ("name", Value.str "C")]]

def sampleResvs : List Record :=
  [[("reservation_id", Value.str "7"), ("customer_id", Value.str "1"),
    ("hotel_id", Value.str "2")]]

def sampleResv : Reservation := ⟨Value.str "9", Value.str "1", Value.str "2"⟩

def dupHotelA : Record := [("hotel_id", Value.str "1"), ("name", Value.str "A")]

def dupHotelB : Record := [("hotel_id", Value.str "1"), ("name", Value.str "B")]

/-- A collection whose second record lacks the `hotel_id` key. -/
def badHotels : List Record :=
  [[("hotel_id", Value.str "1"), ("name", Value.str "A")],
   [("name", Value.str "NoId")]]

/-- A collection whose only record lacks the `reservation_id` key. -/
def badResvs : List Record :=
  [[("customer_id", Value.str "1"), ("hotel_id", Value.str "2")]]

/-! Helper lemmas about the dictionary operations. -/

theorem setItem_pyGet_self (r : Record) (key : String) (v : Value) :
    pyGet (setItem r key v) key = some v := by
  induction r with
  | nil => simp [setItem, pyGet]
  | cons kv rest ih =>
    obtain ⟨k1, v1⟩ := kv
    by_cases h : k1 = key
    · simp [setItem, h, pyGet]
    · simp [setItem, h, pyGet, ih]

theorem setItem_pyGet_other (r : Record) (key other : String) (v : Value)
    (h : key ≠ other) : pyGet (setItem r key v) other = pyGet r other := by
  induction r with
  | nil => simp [setItem, pyGet, h]
  | cons kv rest ih =>
    obtain ⟨k1, v1⟩ := kv
    by_cases h1 : k1 = key
    · subst h1
      simp [setItem, pyGet, h]
    · simp [setItem, h1, pyGet, ih]

theorem dictUpdate_nil (r : Record) : dictUpdate r [] = r := rfl

theorem dictUpdate_cons (r : Record) (key : String) (v : Value) (rest : Record) :
    dictUpdate r ((key, v) :: rest) = dictUpdate (setItem r key v) rest := rfl

/-- A field not named in `new_info` keeps its previous value under `update`. -/
theorem dictUpdate_pyGet_not_mem (new_info : Record) (r : Record) (key : String)
    (h : key ∉ new_info.map Prod.fst) :
    pyGet (dictUpdate r new_info) key = pyGet r key := by
  induction new_info generalizing r with
  | nil => rfl
  | cons kv rest ih =>
    obtain ⟨k1, v1⟩ := kv
    simp only [List.map_cons, List.mem_cons, not_or] at h
    rw [dictUpdate_cons, ih _ h.2, setItem_pyGet_other]
    exact fun hq => h.1 hq.symm

/-- A field named in `new_info` (whose keys are distinct, as in a real
Python dict) ends with the value given there after `update`. -/
theorem dictUpdate_pyGet_mem (new_info : Record) (r : Record) (key : String) (v : Value)
    (hnd : (new_info.map Prod.fst).Nodup) (hmem : (key, v) ∈ new_info) :
    pyGet (dictUpdate r new_info) key = some v := by
  induction new_info generalizing r with
  | nil => cases hmem
  | cons kv rest ih =>
    obtain ⟨k1, v1⟩ := kv
    simp only [List.map_cons, List.nodup_cons] at hnd
    rw [dictUpdate_cons]
    rcases List.mem_cons.mp hmem with heq | hrest
    · obtain ⟨hk, hv⟩ := Prod.mk.injEq key v k1 v1 ▸ heq
      subst hk
      subst hv
      rw [dictUpdate_pyGet_not_mem _ _ _ hnd.1, setItem_pyGet_self]
    · exact ih _ hnd.2 hrest

/-! Helper lemmas about the three traversal loops: on a collection in which
every record carries the identifier key they compute the intended filter or
map; a single record lacking the key makes them raise `KeyError`. -/

theorem filterById_ok (key : String) (target : Value) (l : List Record)
    (hwf : ∀ r ∈ l, (pyGet r key).isSome = true) :
    filterById key target l
      = Except.ok (l.filter (fun r => decide (pyGet r key ≠ some target))) := by
  induction l with
  | nil => rfl
  | cons r rs ih =>
    obtain ⟨v, hv⟩ := Option.isSome_iff_exists.mp (hwf r (List.mem_cons_self r rs))
    have ih2 := ih (fun a ha => hwf a (List.mem_cons_of_mem r ha))
    by_cases hvt : v = target
    · subst hvt
      simp [filterById, getItem, hv, ih2, List.filter_cons]
    · simp [filterById, getItem, hv, ih2, List.filter_cons, hvt]

theorem filterById_error (key : String) (target : Value) (l : List Record)
    (hbad : ∃ r ∈ l, pyGet r key = none) :
    filterById key target l = Except.error PyError.keyError := by
  induction l with
  | nil => simp at hbad
  | cons r rs ih =>
    rcases hbad with ⟨r0, hr0, hnone⟩
    rcases List.mem_cons.mp hr0 with heq | hmem
    · subst heq
      simp [filterById, getItem, hnone]
    · rcases hq : pyGet r key with _ | v
      · simp [filterById, getItem, hq]
      · have htail := ih ⟨r0, hmem, hnone⟩
        simp [filterById, getItem, hq, htail]

theorem printMatching_ok (key : String) (target : Value) (l : List Record)
    (hwf : ∀ r ∈ l, (pyGet r key).isSome = true) :
    printMatching key target l
      = Except.ok (l.filter (fun r => decide (pyGet r key = some target))) := by
  induction l with
  | nil => rfl
  | cons r rs ih =>
    obtain ⟨v, hv⟩ := Option.isSome_iff_exists.mp (hwf r (List.mem_cons_self r rs))
    have ih2 := ih (fun a ha => hwf a (List.mem_cons_of_mem r ha))
    by_cases hvt : v = target
    · subst hvt
      simp [printMatching, getItem, hv, ih2, List.filter_cons]
    · simp [printMatching, getItem, hv, ih2, List.filter_cons, hvt]

theorem printMatching_error (key : String) (target : Value) (l : List Record)
    (hbad : ∃ r ∈ l, pyGet r key = none) :
    printMatching key target l = Except.error PyError.keyError := by
  induction l with
  | nil => simp at hbad
  | cons r rs ih =>
    rcases hbad with ⟨r0, hr0, hnone⟩
    rcases List.mem_cons.mp hr0 with heq | hmem
    · subst heq
      simp [printMatching, getItem, hnone]
    · rcases hq : pyGet r key with _ | v
      · simp [printMatching, getItem, hq]
      · have htail := ih ⟨r0, hmem, hnone⟩
        simp [printMatching, getItem, hq, htail]

theorem updateMatching_ok (key : String) (target : Value) (new_info : Record)
    (l : List Record) (hwf : ∀ r ∈ l, (pyGet r key).isSome = true) :
    updateMatching key target new_info l
      = Except.ok (l.map
          (fun r => if pyGet r key = some target then dictUpdate r new_info else r)) := by
  induction l with
  | nil => rfl
  | cons r rs ih =>
    obtain ⟨v, hv⟩ := Option.isSome_iff_exists.mp (hwf r (List.mem_cons_self r rs))
    have ih2 := ih (fun a ha => hwf a (List.mem_cons_of_mem r ha))
    by_cases hvt : v = target
    · subst hvt
      simp [updateMatching, getItem, hv, ih2]
    · simp [updateMatching, getItem, hv, ih2, hvt]

theorem updateMatching_error (key : String) (target : Value) (new_info : Record)
    (l : List Record) (hbad : ∃ r ∈ l, pyGet r key = none) :
    updateMatching key target new_info l = Except.error PyError.keyError := by
  induction l with
  | nil => simp at hbad
  | cons r rs ih =>
    rcases hbad with ⟨r0, hr0, hnone⟩
    rcases List.mem_cons.mp hr0 with heq | hmem
    · subst heq
      simp [updateMatching, getItem, hnone]
    · rcases hq : pyGet r key with _ | v
      · simp [updateMatching, getItem, hq]
      · have htail := ih ⟨r0, hmem, hnone⟩
        simp [updateMatching, getItem, hq, htail]

/-- C1: on a collection with no entry carrying the new record's identifier,
`create_hotel` followed by a load yields exactly one entry with that
identifier. -/
theorem C1_create_then_load_unique (hotels : List Record) (h : Hotel)
    (hnone : ∀ r ∈ hotels, pyGet r "hotel_id" ≠ some h.hotel_id) :
    ∃ fs2 : FileContent,
      HotelManager.create_hotel h (mkFile hotels) = Except.ok fs2 ∧
      (Persistence.load_data fs2).1 = PyObj.pylist (hotels ++ [h.to_dict]) ∧
      (hotels ++ [h.to_dict]).countP
        (fun r => decide (pyGet r "hotel_id" = some h.hotel_id)) = 1 := by
  refine ⟨Persistence.save_data (hotels ++ [h.to_dict]), rfl, rfl, ?_⟩
  have h0 : hotels.countP (fun r => decide (pyGet r "hotel_id" = some h.hotel_id)) = 0 :=
    List.countP_eq_zero.mpr (fun a ha => by simpa using hnone a ha)
  have h2 : pyGet h.to_dict "hotel_id" = some h.hotel_id := by
    simp [Hotel.to_dict, pyGet]
  rw [List.countP_append, h0]
  simp [List.countP_cons, h2]

theorem C1_witness :
    (∀ r ∈ sampleHotels, pyGet r "hotel_id" ≠ some sampleHotel.hotel_id)
    ∧ ∃ fs2 : FileContent,
        HotelManager.create_hotel sampleHotel (mkFile sampleHotels) = Except.ok fs2 ∧
        (Persistence.load_data fs2).1
          = PyObj.pylist (sampleHotels ++ [sampleHotel.to_dict]) ∧
        (sampleHotels ++ [sampleHotel.to_dict]).countP
          (fun r => decide (pyGet r "hotel_id" = some sampleHotel.hotel_id)) = 1 :=
  ⟨by decide, C1_create_then_load_unique sampleHotels sampleHotel (by decide)⟩

/-- C2: on a collection in which every record carries the identifier key,
delete saves the collection with exactly the matching entries removed, and
is a saved no-op (no error) when nothing matches; stated for
`HotelManager.delete_hotel` and `ReservationManager.cancel_reservation`. -/
theorem C2_delete_filters (hotels resvs : List Record) (hid rid : Value)
    (hwfh : ∀ r ∈ hotels, (pyGet r "hotel_id").isSome = true)
    (hwfr : ∀ r ∈ resvs, (pyGet r "reservation_id").isSome = true) :
    (HotelManager.delete_hotel hid (mkFile hotels)
        = Except.ok (Persistence.save_data
            (hotels.filter (fun r => decide (pyGet r "hotel_id" ≠ some hid)))))
    ∧ ((∀ r ∈ hotels, pyGet r "hotel_id" ≠ some hid) →
        HotelManager.delete_hotel hid (mkFile hotels)
          = Except.ok (Persistence.save_data hotels))
    ∧ (ReservationManager.cancel_reservation rid (mkFile resvs)
        = Except.ok (Persistence.save_data
            (resvs.filter (fun r => decide (pyGet r "reservation_id" ≠ some rid)))))
    ∧ ((∀ r ∈ resvs, pyGet r "reservation_id" ≠ some rid) →
        ReservationManager.cancel_reservation rid (mkFile resvs)
          = Except.ok (Persistence.save_data resvs)) := by
  have hf1 := filterById_ok "hotel_id" hid hotels hwfh
  have hf2 := filterById_ok "reservation_id" rid resvs hwfr
  refine ⟨?_, ?_, ?_, ?_⟩
  · simp [HotelManager.delete_hotel, mkFile, Persistence.load_data, hf1]
  · intro hnone
    have he : hotels.filter (fun r => decide (pyGet r "hotel_id" ≠ some hid)) = hotels :=
      List.filter_eq_self.mpr (fun a ha => by simpa using hnone a ha)
    rw [he] at hf1
    simp [HotelManager.delete_hotel, mkFile, Persistence.load_data, hf1]
  · simp [ReservationManager.cancel_reservation, mkFile, Persistence.load_data, hf2]
  · intro hnone
    have he : resvs.filter (fun r => decide (pyGet r "reservation_id" ≠ some rid)) = resvs :=
      List.filter_eq_self.mpr (fun a ha => by simpa using hnone a ha)
    rw [he] at hf2
    simp [ReservationManager.cancel_reservation, mkFile, Persistence.load_data, hf2]

theorem C2_witness :
    (∀ r ∈ sampleHotels2, (pyGet r "hotel_id").isSome = true)
    ∧ (∀ r ∈ sampleResvs, (pyGet r "reservation_id").isSome = true)
    ∧ ((HotelManager.delete_hotel (Value.str "1") (mkFile sampleHotels2)
          = Except.ok (Persistence.save_data (sampleHotels2.filter
              (fun r => decide (pyGet r "hotel_id" ≠ some (Value.str "1"))))))
        ∧ ((∀ r ∈ sampleHotels2, pyGet r "hotel_id" ≠ some (Value.str "1")) →
            HotelManager.delete_hotel (Value.str "1") (mkFile sampleHotels2)
              = Except.ok (Persistence.save_data sampleHotels2))
        ∧ (ReservationManager.cancel_reservation (Value.str "9") (mkFile sampleResvs)
            = Except.ok (Persistence.save_data (sampleResvs.filter
                (fun r => decide (pyGet r "reservation_id" ≠ some (Value.str "9"))))))
        ∧ ((∀ r ∈ sampleResvs, pyGet r "reservation_id" ≠ some (Value.str "9")) →
            ReservationManager.cancel_reservation (Value.str "9") (mkFile sampleResvs)
              = Except.ok (Persistence.save_data sampleResvs))) :=
  ⟨by decide, by decide,
    C2_delete_filters sampleHotels2 sampleResvs (Value.str "1") (Value.str "9")
      (by decide) (by decide)⟩

/-- C3: create saves exactly the loaded collection with the serialized
record appended at the end, so the stored collection grows by one entry;
no duplicate-identifier check is performed (no hypothesis on identifiers).
Stated for `HotelManager.create_hotel` and `CustomerManager.create_customer`. -/
theorem C3_create_appends (hotels customers : List Record) (h : Hotel) (c : Customer) :
    HotelManager.create_hotel h (mkFile hotels)
      = Except.ok (Persistence.save_data (hotels ++ [h.to_dict]))
    ∧ (hotels ++ [h.to_dict]).length = hotels.length + 1
    ∧ CustomerManager.create_customer c (mkFile customers)
      = Except.ok (Persistence.save_data (customers ++ [c.to_dict]))
    ∧ (customers ++ [c.to_dict]).length = customers.length + 1 :=
  ⟨rfl, by simp, rfl, by simp⟩

/-- C4: on a collection in which every record carries the identifier key,
modify saves the collection with `new_info` merged into every matching
entry, and in a merged entry every field named in `new_info` holds the
value given there (fields not previously present are added). -/
theorem C4_modify_overwrites_named_fields (hotels : List Record) (hid : Value)
    (new_info : Record)
    (hwf : ∀ r ∈ hotels, (pyGet r "hotel_id").isSome = true)
    (hnd : (new_info.map Prod.fst).Nodup) :
    HotelManager.modify_hotel hid new_info (mkFile hotels)
      = Except.ok (Persistence.save_data (hotels.map
          (fun r => if pyGet r "hotel_id" = some hid then dictUpdate r new_info else r)))
    ∧ (∀ r : Record, ∀ kv ∈ new_info, pyGet (dictUpdate r new_info) kv.1 = some kv.2) := by
  have hu := updateMatching_ok "hotel_id" hid new_info hotels hwf
  constructor
  · simp [HotelManager.modify_hotel, mkFile, Persistence.load_data, hu]
  · intro r kv hkv
    exact dictUpdate_pyGet_mem new_info r kv.1 kv.2 hnd (by rw [Prod.mk.eta]; exact hkv)

theorem C4_witness :
    (∀ r ∈ sampleHotels2, (pyGet r "hotel_id").isSome = true)
    ∧ (([("name", Value.str "New"), ("stars", Value.int 5)].map Prod.fst).Nodup)
    ∧ (HotelManager.modify_hotel (Value.str "1")
          [("name", Value.str "New"), ("stars", Value.int 5)] (mkFile sampleHotels2)
        = Except.ok (Persistence.save_data (sampleHotels2.map
            (fun r => if pyGet r "hotel_id" = some (Value.str "1")
              then dictUpdate r [("name", Value.str "New"), ("stars", Value.int 5)]
              else r)))
        ∧ (∀ r : Record, ∀ kv ∈ [("name", Value.str "New"), ("stars", Value.int 5)],
            pyGet (dictUpdate r [("name", Value.str "New"), ("stars", Value.int 5)]) kv.1
              = some kv.2)) :=
  ⟨by decide, by decide,
    C4_modify_overwrites_named_fields sampleHotels2 (Value.str "1")
      [("name", Value.str "New"), ("stars", Value.int 5)] (by decide) (by decide)⟩

/-- C5: on a collection in which every record carries the identifier key,
modify saves exactly the pointwise update of the matching entries; a field
not named in `new_info` (the identifier included) keeps its previous value,
and a non-matching entry is left entirely unchanged. -/
theorem C5_modify_frame (hotels : List Record) (hid : Value) (new_info : Record)
    (hwf : ∀ r ∈ hotels, (pyGet r "hotel_id").isSome = true) :
    HotelManager.modify_hotel hid new_info (mkFile hotels)
      = Except.ok (Persistence.save_data (hotels.map
          (fun r => if pyGet r "hotel_id" = some hid then dictUpdate r new_info else r)))
    ∧ (∀ r : Record, ∀ key : String, key ∉ new_info.map Prod.fst →
        pyGet (dictUpdate r new_info) key = pyGet r key)
    ∧ (∀ r ∈ hotels, pyGet r "hotel_id" ≠ some hid →
        (if pyGet r "hotel_id" = some hid then dictUpdate r new_info else r) = r) := by
  have hu := updateMatching_ok "hotel_id" hid new_info hotels hwf
  refine ⟨?_, ?_, ?_⟩
  · simp [HotelManager.modify_hotel, mkFile, Persistence.load_data, hu]
  · intro r key hkey
    exact dictUpdate_pyGet_not_mem new_info r key hkey
  · intro r _ hne
    simp [hne]

theorem C5_witness :
    (∀ r ∈ sampleHotels2, (pyGet r "hotel_id").isSome = true)
    ∧ (HotelManager.modify_hotel (Value.str "1") [("name", Value.str "New")]
          (mkFile sampleHotels2)
        = Except.ok (Persistence.save_data (sampleHotels2.map
            (fun r => if pyGet r "hotel_id" = some (Value.str "1")
              then dictUpdate r [("name", Value.str "New")] else r)))
        ∧ (∀ r : Record, ∀ key : String,
            key ∉ ([("name", Value.str "New")] : Record).map Prod.fst →
            pyGet (dictUpdate r [("name", Value.str "New")]) key = pyGet r key)
        ∧ (∀ r ∈ sampleHotels2, pyGet r "hotel_id" ≠ some (Value.str "1") →
            (if pyGet r "hotel_id" = some (Value.str "1")
              then dictUpdate r [("name", Value.str "New")] else r) = r)) :=
  ⟨by decide, C5_modify_frame sampleHotels2 (Value.str "1")
    [("name", Value.str "New")] (by decide)⟩

/-- C6 counterexample: a file whose content is the JSON string literal
"oops" is malformed in the claim's sense (valid JSON, but not a valid
persisted collection), yet `load_data` returns the parsed string unchanged
rather than the empty collection, and reports nothing. -/
theorem C6_counterexample :
    malformedContent (FileContent.validJson (PyObj.pystr "oops")) = true
    ∧ (Persistence.load_data (FileContent.validJson (PyObj.pystr "oops"))).1
        ≠ PyObj.pylist []
    ∧ (Persistence.load_data (FileContent.validJson (PyObj.pystr "oops"))).2 = false := by
  decide

/-- C6 amended: on a file that fails to parse as JSON, load reports the
error and returns the empty collection, raising nothing to the caller
(`load_data` is a total function); a file holding valid JSON that is not a
collection is returned as parsed, with no report. -/
theorem C6_amended_load_malformed :
    Persistence.load_data FileContent.invalidJson = (PyObj.pylist [], true)
    ∧ ∀ s : String,
        Persistence.load_data (FileContent.validJson (PyObj.pystr s))
          = (PyObj.pystr s, false) :=
  ⟨rfl, fun _ => rfl⟩

/-- C7: loading a missing file returns the empty collection and surfaces
no error. -/
theorem C7_load_missing :
    Persistence.load_data FileContent.missing = (PyObj.pylist [], false) := rfl

/-- C8 counterexample: with two distinct entries sharing the identifier,
`display_hotel` prints both of them, not only the first matching entry. -/
theorem C8_counterexample :
    HotelManager.display_hotel (Value.str "1") (mkFile [dupHotelA, dupHotelB])
      = Except.ok ([dupHotelA, dupHotelB], mkFile [dupHotelA, dupHotelB])
    ∧ dupHotelA ≠ dupHotelB := by
  decide

/-- C8 amended: on a collection in which every record carries the
identifier key, display prints every matching entry in order (hence the
first one only when at most one matches), prints nothing silently when no
entry matches, and the stored collection is not modified. -/
theorem C8_amended_display (hotels : List Record) (hid : Value)
    (hwf : ∀ r ∈ hotels, (pyGet r "hotel_id").isSome = true) :
    HotelManager.display_hotel hid (mkFile hotels)
      = Except.ok (hotels.filter (fun r => decide (pyGet r "hotel_id" = some hid)),
                   mkFile hotels)
    ∧ ((∀ r ∈ hotels, pyGet r "hotel_id" ≠ some hid) →
        HotelManager.display_hotel hid (mkFile hotels)
          = Except.ok ([], mkFile hotels)) := by
  have hp := printMatching_ok "hotel_id" hid hotels hwf
  constructor
  · simp [HotelManager.display_hotel, mkFile, Persistence.load_data, hp]
  · intro hnone
    have he : hotels.filter (fun r => decide (pyGet r "hotel_id" = some hid)) = [] :=
      List.filter_eq_nil_iff.mpr (fun a ha => by simpa using hnone a ha)
    rw [he] at hp
    simp [HotelManager.display_hotel, mkFile, Persistence.load_data, hp]

theorem C8_witness :
    (∀ r ∈ sampleHotels2, (pyGet r "hotel_id").isSome = true)
    ∧ (HotelManager.display_hotel (Value.str "2") (mkFile sampleHotels2)
        = Except.ok (sampleHotels2.filter
              (fun r => decide (pyGet r "hotel_id" = some (Value.str "2"))),
            mkFile sampleHotels2)
        ∧ ((∀ r ∈ sampleHotels2, pyGet r "hotel_id" ≠ some (Value.str "2")) →
            HotelManager.display_hotel (Value.str "2") (mkFile sampleHotels2)
              = Except.ok ([], mkFile sampleHotels2))) :=
  ⟨by decide, C8_amended_display sampleHotels2 (Value.str "2") (by decide)⟩

/-- C9: on a collection in which every record carries the reservation
identifier key and none carries the new reservation's identifier, creating
the reservation and then cancelling that identifier leaves the stored
collection, as loaded afterwards, with no entry carrying it. (The
cancellation in fact removes every matching entry, so the pre-existing
absence hypothesis is inessential.) -/
theorem C9_create_then_cancel (resvs : List Record) (res : Reservation)
    (hwf : ∀ r ∈ resvs, (pyGet r "reservation_id").isSome = true)
    (_hnone : ∀ r ∈ resvs, pyGet r "reservation_id" ≠ some res.reservation_id) :
    ∃ fs1 fs2 : FileContent,
      ReservationManager.create_reservation res (mkFile resvs) = Except.ok fs1 ∧
      ReservationManager.cancel_reservation res.reservation_id fs1 = Except.ok fs2 ∧
      ∃ final : List Record,
        Persistence.load_data fs2 = (PyObj.pylist final, false) ∧
        ∀ r ∈ final, pyGet r "reservation_id" ≠ some res.reservation_id := by
  refine ⟨Persistence.save_data (resvs ++ [res.to_dict]), ?_⟩
  have wf2 : ∀ r ∈ resvs ++ [res.to_dict], (pyGet r "reservation_id").isSome = true := by
    intro r hr
    rcases List.mem_append.mp hr with hl | hr2
    · exact hwf r hl
    · rcases List.mem_singleton.mp hr2 with rfl
      simp [Reservation.to_dict, pyGet]
  have hf := filterById_ok "reservation_id" res.reservation_id (resvs ++ [res.to_dict]) wf2
  refine ⟨Persistence.save_data ((resvs ++ [res.to_dict]).filter
      (fun r => decide (pyGet r "reservation_id" ≠ some res.reservation_id))), rfl, ?_, ?_⟩
  · simp [ReservationManager.cancel_reservation, Persistence.save_data,
      Persistence.load_data, hf]
  · refine ⟨_, rfl, ?_⟩
    intro r hr
    exact of_decide_eq_true (List.mem_filter.mp hr).2

theorem C9_witness :
    (∀ r ∈ sampleResvs, (pyGet r "reservation_id").isSome = true)
    ∧ (∀ r ∈ sampleResvs, pyGet r "reservation_id" ≠ some sampleResv.reservation_id)
    ∧ ∃ fs1 fs2 : FileContent,
        ReservationManager.create_reservation sampleResv (mkFile sampleResvs)
          = Except.ok fs1 ∧
        ReservationManager.cancel_reservation sampleResv.reservation_id fs1
          = Except.ok fs2 ∧
        ∃ final : List Record,
          Persistence.load_data fs2 = (PyObj.pylist final, false) ∧
          ∀ r ∈ final, pyGet r "reservation_id" ≠ some sampleResv.reservation_id :=
  ⟨by decide, by decide,
    C9_create_then_cancel sampleResvs sampleResv (by decide) (by decide)⟩

/-- C10: the delete, display and modify loops subscript the identifier of
every loaded record unguarded: as soon as one record lacks the key, the
operation raises `KeyError` (so no filtered save, no print run to
completion, no silent no-op). -/
theorem C10_missing_key_errors (hotels resvs : List Record) (r0 r1 : Record)
    (hid rid : Value) (new_info : Record)
    (hmem : r0 ∈ hotels) (hkey : pyGet r0 "hotel_id" = none)
    (hmem2 : r1 ∈ resvs) (hkey2 : pyGet r1 "reservation_id" = none) :
    HotelManager.delete_hotel hid (mkFile hotels) = Except.error PyError.keyError
    ∧ HotelManager.display_hotel hid (mkFile hotels) = Except.error PyError.keyError
    ∧ HotelManager.modify_hotel hid new_info (mkFile hotels)
        = Except.error PyError.keyError
    ∧ ReservationManager.cancel_reservation rid (mkFile resvs)
        = Except.error PyError.keyError := by
  have h1 := filterById_error "hotel_id" hid hotels ⟨r0, hmem, hkey⟩
  have h2 := printMatching_error "hotel_id" hid hotels ⟨r0, hmem, hkey⟩
  have h3 := updateMatching_error "hotel_id" hid new_info hotels ⟨r0, hmem, hkey⟩
  have h4 := filterById_error "reservation_id" rid resvs ⟨r1, hmem2, hkey2⟩
  refine ⟨?_, ?_, ?_, ?_⟩
  · simp [HotelManager.delete_hotel, mkFile, Persistence.load_data, h1]
  · simp [HotelManager.display_hotel, mkFile, Persistence.load_data, h2]
  · simp [HotelManager.modify_hotel, mkFile, Persistence.load_data, h3]
  · simp [ReservationManager.cancel_reservation, mkFile, Persistence.load_data, h4]

theorem C10_witness :
    ([("name", Value.str "NoId")] ∈ badHotels)
    ∧ (pyGet [("name", Value.str "NoId")] "hotel_id" = none)
    ∧ ([("customer_id", Value.str "1"), ("hotel_id", Value.str "2")] ∈ badResvs)
    ∧ (pyGet [("customer_id", Value.str "1"), ("hotel_id", Value.str "2")]
        "reservation_id" = none)
    ∧ (HotelManager.delete_hotel (Value.str "1") (mkFile badHotels)
          = Except.error PyError.keyError
        ∧ HotelManager.display_hotel (Value.str "1") (mkFile badHotels)
          = Except.error PyError.keyError
        ∧ HotelManager.modify_hotel (Value.str "1") [("name", Value.str "New")]
            (mkFile badHotels) = Except.error PyError.keyError
        ∧ ReservationManager.cancel_reservation (Value.str "1") (mkFile badResvs)
          = Except.error PyError.keyError) :=
  ⟨by decide, by decide, by decide, by decide,
    C10_missing_key_errors badHotels badResvs [("name", Value.str "NoId")]
      [("customer_id", Value.str "1"), ("hotel_id", Value.str "2")]
      (Value.str "1") (Value.str "1") [("name", Value.str "New")]
      (by decide) (by decide) (by decide) (by decide)⟩

example : Persistence.load_data FileContent.missing = (PyObj.pylist [], false) := rfl

example :
    HotelManager.delete_hotel (Value.str "1")
      (mkFile [[("hotel_id", Value.str "1")], [("hotel_id", Value.str "2")]])
      = Except.ok (Persistence.save_data [[("hotel_id", Value.str "2")]]) := by decide

example :
    HotelManager.display_hotel (Value.str "1")
      (mkFile [[("hotel_id", Value.str "1"), ("name", Value.str "A")],
               [("hotel_id", Value.str "1"), ("name", Value.str "B")]])
      = Except.ok ([[("hotel_id", Value.str "1"), ("name", Value.str "A")],
                    [("hotel_id", Value.str "1"), ("name", Value.str "B")]],
                   mkFile [[("hotel_id", Value.str "1"), ("name", Value.str "A")],
                           [("hotel_id", Value.str "1"), ("name", Value.str "B")]]) := by decide

example :
    HotelManager.modify_hotel (Value.str "1") [("name", Value.str "New")]
      (mkFile [[("hotel_id", Value.str "1"), ("name", Value.str "Old")]])
      = Except.ok (Persistence.save_data
          [[("hotel_id", Value.str "1"), ("name", Value.str "New")]]) := by decide

example :
    HotelManager.delete_hotel (Value.str "1")
      (mkFile [[("name", Value.str "A")]]) = Except.error PyError.keyError := by decide
